import Mathlib

/-
Shallow embedding of barter-data-rs (files src/exchange/mod.rs and
src/exchange/binance/futures/candle.rs) and proofs about the claims of
its specification.

Conventions of the embedding:
  - chrono DateTime<Utc> values are epoch milliseconds (Nat); the chrono
    Default value is the Unix epoch, i.e. 0.
  - f64 price/volume fields are rationals: the normalizer only copies them,
    it performs no arithmetic, so exact rationals are a faithful model of
    the parsed numeric values.
  - Utc::now() is made explicit: the normalizer takes the local clock
    reading as an argument.
-/

namespace BarterData

/-- Epoch-millisecond model of chrono DateTime<Utc>. -/
abbrev DateTimeUtc := Nat

/-- Model of barter_integration SubscriptionId, a string newtype. -/
structure SubscriptionId where
  val : String
deriving DecidableEq, Repr

/-- Model of barter_integration Exchange, a string newtype built From a &str. -/
structure Exchange where
  val : String
deriving DecidableEq, Repr

/-- Model of barter_integration Instrument: the normalizer only passes it
through unchanged, so its internals are collapsed to one string. -/
structure Instrument where
  val : String
deriving DecidableEq, Repr

/-- Embedding of the ExchangeId enum from src/exchange/mod.rs. -/
inductive ExchangeId where
  | BinanceFuturesUsd
  | BinanceSpot
  | Bitfinex
  | Coinbase
  | GateioFuturesBtc
  | GateioFuturesUsd
  | GateioSpot
  | Kraken
  | Okx
deriving DecidableEq, Repr, Fintype

/-- Embedding of ExchangeId::as_str from src/exchange/mod.rs. -/
def ExchangeId.as_str : ExchangeId → String
  | .BinanceSpot => "binance_spot"
  | .BinanceFuturesUsd => "binance_futures_usd"
  | .Bitfinex => "bitfinex"
  | .Coinbase => "coinbase"
  | .GateioSpot => "gateio_spot"
  | .GateioFuturesUsd => "gateio_futures_usd"
  | .GateioFuturesBtc => "gateio_futures_btc"
  | .Kraken => "kraken"
  | .Okx => "okx"

/-- Embedding of the Display impl for ExchangeId: it writes exactly
self.as_str(). -/
def ExchangeId.display (id : ExchangeId) : String :=
  id.as_str

/-- Embedding of the From<ExchangeId> impl for Exchange:
Exchange::from(exchange_id.as_str()). -/
def Exchange.fromExchangeId (id : ExchangeId) : Exchange :=
  ⟨id.as_str⟩

/-- Embedding of ExchangeId::supports_spot from src/exchange/mod.rs. -/
def ExchangeId.supports_spot : ExchangeId → Bool
  | .BinanceFuturesUsd => false
  | _ => true

/-- Embedding of ExchangeId::supports_futures from src/exchange/mod.rs. -/
def ExchangeId.supports_futures : ExchangeId → Bool
  | .BinanceFuturesUsd => true
  | .Okx => true
  | _ => false

/-- Embedding of ExchangeId::supports_trades from src/exchange/mod.rs:
the match returns true for every variant. -/
def ExchangeId.supports_trades : ExchangeId → Bool
  | _ => true

/-- Embedding of ExchangeId::supports_liquidations from src/exchange/mod.rs. -/
def ExchangeId.supports_liquidations : ExchangeId → Bool
  | .BinanceFuturesUsd => true
  | _ => false

/-- Embedding of BinanceKline from src/exchange/binance/futures/candle.rs:
the parsed "k" object of a BinanceFuturesUsd kline message. -/
structure BinanceKline where
  start_time : DateTimeUtc
  close_time : DateTimeUtc
  symbol : String
  interval : String
  first_trade_id : Nat
  last_trade_id : Nat
  «open» : ℚ
  high : ℚ
  low : ℚ
  close : ℚ
  volume : ℚ
  num_trades : Nat
  is_closed : Bool
  quote_asset_volume : ℚ
  taker_base_asset_volume : ℚ
  taker_quote_asset_volume : ℚ
deriving DecidableEq, Repr

/-- Embedding of BinanceCandle from src/exchange/binance/futures/candle.rs. -/
structure BinanceCandle where
  subscription_id : SubscriptionId
  kline : BinanceKline
deriving DecidableEq, Repr

/-- Embedding of the Identifier<Option<SubscriptionId>> impl for
BinanceCandle: it returns Some(self.subscription_id.clone()). -/
def BinanceCandle.id (c : BinanceCandle) : Option SubscriptionId :=
  some c.subscription_id

/-- Model of barter_integration ExchangeSub: a (channel, market) pair. -/
structure ExchangeSub where
  channel : String
  market : String
deriving DecidableEq, Repr

/-- Modelled from the spec: ExchangeSub::id() lives outside the provided
sources. The spec describes the SubscriptionIdentity as "computed
deterministically from a (channel-name, market-name) pair, using
exchange-specific encoding rules (e.g., concatenation)", and the doc comment
on de_kline_subscription_id gives the Binance rule concretely: symbol
"BTCUSDT" maps to SubscriptionId "@klinesBTCUSDT", i.e. the candles channel
name concatenated with the market. -/
def ExchangeSub.id (sub : ExchangeSub) : SubscriptionId :=
  ⟨sub.channel ++ sub.market⟩

/-- Modelled from the spec: BinanceChannel::CANDLES is outside the provided
sources; the doc comment on de_kline_subscription_id shows the candles
channel name is "@klines". -/
def BinanceChannel.CANDLES : String :=
  "@klines"

/-- Embedding of de_kline_subscription_id from
src/exchange/binance/futures/candle.rs: the "s" symbol field is mapped to
ExchangeSub::from((BinanceChannel::CANDLES, market)).id(). -/
def de_kline_subscription_id (market : String) : SubscriptionId :=
  (ExchangeSub.mk BinanceChannel.CANDLES market).id

/-- Decimal-digit value of a character, as in string-to-number parsing. -/
def digitVal (c : Char) : Option Nat :=
  if c.isDigit then some (c.toNat - 48) else none

def parseDigitsGo (acc : Nat) : List Char → Option Nat
  | [] => some acc
  | c :: cs =>
    match digitVal c with
    | some d => parseDigitsGo (acc * 10 + d) cs
    | none => none

/-- Parse a nonempty run of decimal digits. -/
def parseDigits (cs : List Char) : Option Nat :=
  if cs.isEmpty then none else parseDigitsGo 0 cs

/-- Model of the external barter_integration::de::de_str deserializer for
the numeric string fields ("0.0010" etc.): an exact decimal parse into ℚ.
The normalizer only copies these values, so exact rationals model the
parsed numbers faithfully. -/
def parseDecimal (s : String) : Option ℚ :=
  match s.toList.splitOn '.' with
  | [w] => (parseDigits w).map (fun n => (n : ℚ))
  | [w, f] => do
      let wn ← parseDigits w
      let fn ← parseDigits f
      pure ((wn : ℚ) + (fn : ℚ) / (10 ^ f.length : ℚ))
  | _ => none

/-- Raw wire shape of the "k" kline object, with its single-letter keys and
numbers-as-strings, as documented in src/exchange/binance/futures/candle.rs. -/
structure RawKline where
  t : Nat
  T : Nat
  s : String
  i : String
  f : Nat
  L : Nat
  o : String
  c : String
  h : String
  l : String
  v : String
  n : Nat
  x : Bool
  q : String
  V : String
  Q : String
deriving DecidableEq, Repr

/-- Raw wire shape of a BinanceFuturesUsd kline message: serde reads only the
"s" symbol (through de_kline_subscription_id) and the "k" object. -/
structure RawBinanceCandle where
  s : String
  k : RawKline
deriving DecidableEq, Repr

/-- Embedding of the serde field mapping declared on BinanceKline: aliases
t, T, s, i, f, L, o, h, l, c, v, n, x, q, V, Q, with the string-encoded
numeric fields going through de_str. -/
def deserializeBinanceKline (raw : RawKline) : Option BinanceKline := do
  let o ← parseDecimal raw.o
  let h ← parseDecimal raw.h
  let l ← parseDecimal raw.l
  let c ← parseDecimal raw.c
  let v ← parseDecimal raw.v
  let q ← parseDecimal raw.q
  let tb ← parseDecimal raw.V
  let tq ← parseDecimal raw.Q
  pure {
    start_time := raw.t
    close_time := raw.T
    symbol := raw.s
    interval := raw.i
    first_trade_id := raw.f
    last_trade_id := raw.L
    «open» := o
    high := h
    low := l
    close := c
    volume := v
    num_trades := raw.n
    is_closed := raw.x
    quote_asset_volume := q
    taker_base_asset_volume := tb
    taker_quote_asset_volume := tq }

/-- Embedding of the serde mapping declared on BinanceCandle: the "s" field
becomes the subscription_id via de_kline_subscription_id and "k" becomes the
kline. -/
def deserializeBinanceCandle (raw : RawBinanceCandle) : Option BinanceCandle := do
  let kline ← deserializeBinanceKline raw.k
  pure { subscription_id := de_kline_subscription_id raw.s, kline := kline }

/-- Embedding of the canonical Candle payload: exactly the fields the struct
literal in the From impl of src/exchange/binance/futures/candle.rs fills. -/
structure Candle where
  close_time : DateTimeUtc
  «open» : ℚ
  high : ℚ
  low : ℚ
  close : ℚ
  volume : ℚ
  trade_count : Nat
deriving DecidableEq, Repr

/-- Embedding of the canonical MarketEvent envelope. -/
structure MarketEvent (Kind : Type) where
  exchange_time : DateTimeUtc
  received_time : DateTimeUtc
  exchange : Exchange
  instrument : Instrument
  kind : Kind
deriving DecidableEq, Repr

/-- Model of a normalization error surfaced as an Err element. -/
abbrev DataError := String

/-- Embedding of MarketIter<Kind>: a finite sequence of independent
success-or-failure events. -/
abbrev MarketIter (Kind : Type) := List (Except DataError (MarketEvent Kind))

/-- Embedding of the From<(ExchangeId, Instrument, BinanceCandle)> impl for
MarketIter<Candle> in src/exchange/binance/futures/candle.rs, with the
Utc::now() reading passed in explicitly as now. -/
def binanceCandleMarketIter (now : DateTimeUtc) (exchange_id : ExchangeId)
    (instrument : Instrument) (candle : BinanceCandle) : MarketIter Candle :=
  [Except.ok {
    exchange_time := candle.kline.start_time
    received_time := now
    exchange := Exchange.fromExchangeId exchange_id
    instrument := instrument
    kind := {
      close_time := default
      «open» := candle.kline.«open»
      high := candle.kline.high
      low := candle.kline.low
      close := candle.kline.close
      volume := candle.kline.volume
      trade_count := candle.kline.num_trades } }]

/-- Nanosecond model of std::time::Duration. -/
structure Duration where
  nanos : Nat
deriving DecidableEq, Repr

/-- Embedding of Duration::from_secs. -/
def Duration.from_secs (secs : Nat) : Duration :=
  ⟨secs * 1000000000⟩

/-- Whole seconds of a Duration, as Duration::as_secs. -/
def Duration.as_secs (d : Duration) : Nat :=
  d.nanos / 1000000000

/-- Model of a WebSocket message payload. -/
abbrev WsMessage := String

/-- Embedding of PingInterval from src/exchange/mod.rs: a cadence plus a
recipe producing the ping payload. -/
structure PingInterval where
  interval : Duration
  ping : Unit → WsMessage

/-- Modelled from the spec: the SubscriptionMap type lives outside the
provided sources (only the Connector default body uses it). The spec
describes it as a mapping from SubscriptionIdentity to an in-flight record
holding a completion slot, pending / confirmed / failed-with-reason. -/
inductive CompletionSlot where
  | pending
  | confirmed
  | failed (reason : String)
deriving DecidableEq, Repr

/-- Modelled from the spec: SubscriptionMap is a mapping from
SubscriptionIdentity to an in-flight subscription record; the Connector
default reads only its entry count (map.0.len()). -/
structure SubscriptionMap where
  entries : List (SubscriptionId × CompletionSlot)
deriving DecidableEq, Repr

/-- Embedding of the default body of Connector::expected_responses from
src/exchange/mod.rs: map.0.len(). -/
def Connector.expected_responses (map : SubscriptionMap) : Nat :=
  map.entries.length

/-- Embedding of the default body of Connector::subscription_timeout from
src/exchange/mod.rs: Duration::from_secs(10). -/
def Connector.subscription_timeout : Duration :=
  Duration.from_secs 10

/-- Embedding of the default body of Connector::ping_interval from
src/exchange/mod.rs: None. -/
def Connector.ping_interval : Option PingInterval :=
  none

/-- Replace the locally captured receipt time by the fixed default, so two
events can be compared on every other field. -/
def eraseReceivedTime {Kind : Type} (ev : MarketEvent Kind) : MarketEvent Kind :=
  { ev with received_time := default }

/-
Concrete data: the raw kline payload documented at the top of
src/exchange/binance/futures/candle.rs (the spec's concrete scenario), and
its deserialized form.
-/

/-- Raw BinanceFuturesUsd kline message of the documented payload example:
is_closed false, open "0.0010", close "0.0020". -/
def exampleRawCandle : RawBinanceCandle :=
  { s := "BTCUSDT"
    k := { t := 1638747660000, T := 1638747719999, s := "BTCUSDT", i := "1m"
           f := 100, L := 200, o := "0.0010", c := "0.0020", h := "0.0025"
           l := "0.0015", v := "1000", n := 100, x := false, q := "1.0000"
           V := "500", Q := "0.500" } }

/-- Deserialized form of exampleRawCandle. -/
def exampleCandle : BinanceCandle :=
  { subscription_id := ⟨"@klinesBTCUSDT"⟩
    kline := { start_time := 1638747660000, close_time := 1638747719999
               symbol := "BTCUSDT", interval := "1m", first_trade_id := 100
               last_trade_id := 200, «open» := 1/1000, high := 1/400
               low := 3/2000, close := 1/500, volume := 1000
               num_trades := 100, is_closed := false, quote_asset_volume := 1
               taker_base_asset_volume := 500, taker_quote_asset_volume := 1/2 } }

lemma parseDecimal_0010 : parseDecimal "0.0010" = some (1/1000 : ℚ) := by
  rw [show parseDecimal "0.0010"
      = some (((0:ℕ):ℚ) + ((10:ℕ):ℚ) / (10 ^ (4:ℕ) : ℚ)) from rfl]
  norm_num

lemma parseDecimal_0020 : parseDecimal "0.0020" = some (1/500 : ℚ) := by
  rw [show parseDecimal "0.0020"
      = some (((0:ℕ):ℚ) + ((20:ℕ):ℚ) / (10 ^ (4:ℕ) : ℚ)) from rfl]
  norm_num

lemma parseDecimal_0025 : parseDecimal "0.0025" = some (1/400 : ℚ) := by
  rw [show parseDecimal "0.0025"
      = some (((0:ℕ):ℚ) + ((25:ℕ):ℚ) / (10 ^ (4:ℕ) : ℚ)) from rfl]
  norm_num

lemma parseDecimal_0015 : parseDecimal "0.0015" = some (3/2000 : ℚ) := by
  rw [show parseDecimal "0.0015"
      = some (((0:ℕ):ℚ) + ((15:ℕ):ℚ) / (10 ^ (4:ℕ) : ℚ)) from rfl]
  norm_num

lemma parseDecimal_1000 : parseDecimal "1000" = some (1000 : ℚ) := by
  rw [show parseDecimal "1000" = some (((1000:ℕ):ℚ)) from rfl]
  norm_num

lemma parseDecimal_1_0000 : parseDecimal "1.0000" = some (1 : ℚ) := by
  rw [show parseDecimal "1.0000"
      = some (((1:ℕ):ℚ) + ((0:ℕ):ℚ) / (10 ^ (4:ℕ) : ℚ)) from rfl]
  norm_num

lemma parseDecimal_500 : parseDecimal "500" = some (500 : ℚ) := by
  rw [show parseDecimal "500" = some (((500:ℕ):ℚ)) from rfl]
  norm_num

lemma parseDecimal_0_500 : parseDecimal "0.500" = some (1/2 : ℚ) := by
  rw [show parseDecimal "0.500"
      = some (((0:ℕ):ℚ) + ((500:ℕ):ℚ) / (10 ^ (3:ℕ) : ℚ)) from rfl]
  norm_num

lemma deserialize_exampleRawCandle :
    deserializeBinanceCandle exampleRawCandle = some exampleCandle := by
  simp only [deserializeBinanceCandle, deserializeBinanceKline, exampleRawCandle,
    parseDecimal_0010, parseDecimal_0020, parseDecimal_0025, parseDecimal_0015,
    parseDecimal_1000, parseDecimal_1_0000, parseDecimal_500, parseDecimal_0_500,
    Option.bind_eq_bind, Option.some_bind, de_kline_subscription_id,
    ExchangeSub.id, BinanceChannel.CANDLES]
  rfl

/-- C1: for the raw BinanceFuturesUsd kline message with is_closed = false,
open = "0.0010", close = "0.0020", the normalizer yields exactly one Ok
event whose Candle payload has open = 0.0010 and close = 0.0020, and whose
exchange_time equals the kline's declared start time (here distinct from the
close time; the event time "E" is not even retained by deserialization). -/
theorem c1_concrete_kline_scenario :
    ∃ candle ev,
      deserializeBinanceCandle exampleRawCandle = some candle ∧
      candle.kline.is_closed = false ∧
      binanceCandleMarketIter 1638747661234 ExchangeId.BinanceFuturesUsd
        (Instrument.mk "btc_usdt") candle = [Except.ok ev] ∧
      ev.kind.«open» = 1/1000 ∧
      ev.kind.close = 1/500 ∧
      ev.exchange_time = candle.kline.start_time ∧
      ev.exchange_time = 1638747660000 ∧
      ev.exchange_time ≠ candle.kline.close_time := by
  refine ⟨exampleCandle, _, deserialize_exampleRawCandle, rfl, rfl, rfl, rfl, rfl, rfl, ?_⟩
  decide

/-- C2 counterexample: the is_closed flag is not carried as an attribute of
the emitted Candle payload; the concrete unclosed example kline and its
closed twin normalize to exactly the same events, so no closed flag is
present downstream. -/
theorem c2_flag_not_carried_counterexample :
    exampleCandle.kline.is_closed = false ∧
    ({ exampleCandle with
        kline := { exampleCandle.kline with is_closed := true } }).kline.is_closed = true ∧
    binanceCandleMarketIter 0 ExchangeId.BinanceFuturesUsd (Instrument.mk "btc_usdt")
        exampleCandle
      = binanceCandleMarketIter 0 ExchangeId.BinanceFuturesUsd (Instrument.mk "btc_usdt")
        { exampleCandle with
            kline := { exampleCandle.kline with is_closed := true } } :=
  ⟨rfl, rfl, rfl⟩

/-- C2 amended: a kline with is_closed = false is still normalized into
exactly one Ok event (partial updates are not filtered out), but the
is_closed flag is not carried on the Candle payload: the output is identical
to that of the same kline with is_closed = true. -/
theorem c2_unclosed_still_emitted (now : DateTimeUtc) (e : ExchangeId)
    (i : Instrument) (c : BinanceCandle) (_h : c.kline.is_closed = false) :
    (∃ ev, binanceCandleMarketIter now e i c = [Except.ok ev]) ∧
    binanceCandleMarketIter now e i c
      = binanceCandleMarketIter now e i
          { c with kline := { c.kline with is_closed := true } } :=
  ⟨⟨_, rfl⟩, rfl⟩

/-- C2 witness: the amended statement at the concrete unclosed example. -/
theorem c2_unclosed_still_emitted_witness :
    (∃ ev, binanceCandleMarketIter 7 ExchangeId.BinanceFuturesUsd
        (Instrument.mk "btc_usdt") exampleCandle = [Except.ok ev]) ∧
    binanceCandleMarketIter 7 ExchangeId.BinanceFuturesUsd
        (Instrument.mk "btc_usdt") exampleCandle
      = binanceCandleMarketIter 7 ExchangeId.BinanceFuturesUsd
          (Instrument.mk "btc_usdt")
          { exampleCandle with
              kline := { exampleCandle.kline with is_closed := true } } :=
  c2_unclosed_still_emitted 7 ExchangeId.BinanceFuturesUsd
    (Instrument.mk "btc_usdt") exampleCandle rfl

/-- C3: for every BinanceCandle input, the emitted Candle payload has
close_time = Default::default() (the epoch), and whenever the kline's
declared close time differs from the default it is therefore not the value
that was copied. -/
theorem c3_close_time_defaulted (now : DateTimeUtc) (e : ExchangeId)
    (i : Instrument) (c : BinanceCandle) :
    ∃ ev, binanceCandleMarketIter now e i c = [Except.ok ev] ∧
      ev.kind.close_time = default ∧
      (c.kline.close_time ≠ default → ev.kind.close_time ≠ c.kline.close_time) :=
  ⟨_, rfl, rfl, fun h => fun hc => h (hc.symm.trans rfl)⟩

/-- C3 witness: the statement at the concrete example, whose kline close
time 1638747719999 differs from the default. -/
theorem c3_close_time_defaulted_witness :
    (exampleCandle.kline.close_time ≠ default) ∧
    ∃ ev, binanceCandleMarketIter 7 ExchangeId.BinanceFuturesUsd
        (Instrument.mk "btc_usdt") exampleCandle = [Except.ok ev] ∧
      ev.kind.close_time = default ∧
      (exampleCandle.kline.close_time ≠ default →
        ev.kind.close_time ≠ exampleCandle.kline.close_time) :=
  ⟨by decide,
    c3_close_time_defaulted 7 ExchangeId.BinanceFuturesUsd
      (Instrument.mk "btc_usdt") exampleCandle⟩

/-- C4: normalizing the same (ExchangeId, Instrument, BinanceCandle) twice,
at clock readings n₁ and n₂, yields singleton sequences whose events carry
received_time n₁ and n₂ respectively and agree on every other field. -/
theorem c4_idempotent_modulo_received_time (n₁ n₂ : DateTimeUtc)
    (e : ExchangeId) (i : Instrument) (c : BinanceCandle) :
    ∃ ev₁ ev₂,
      binanceCandleMarketIter n₁ e i c = [Except.ok ev₁] ∧
      binanceCandleMarketIter n₂ e i c = [Except.ok ev₂] ∧
      ev₁.received_time = n₁ ∧
      ev₂.received_time = n₂ ∧
      eraseReceivedTime ev₁ = eraseReceivedTime ev₂ :=
  ⟨_, _, rfl, rfl, rfl, rfl, rfl⟩

/-- C5: the capability matrix is exactly: supports_futures on
BinanceFuturesUsd and Okx only; supports_spot on everything except
BinanceFuturesUsd; supports_trades everywhere; supports_liquidations on
BinanceFuturesUsd only. -/
theorem c5_capability_matrix :
    ∀ id : ExchangeId,
      (id.supports_futures = true ↔
        (id = ExchangeId.BinanceFuturesUsd ∨ id = ExchangeId.Okx)) ∧
      (id.supports_spot = true ↔ id ≠ ExchangeId.BinanceFuturesUsd) ∧
      id.supports_trades = true ∧
      (id.supports_liquidations = true ↔ id = ExchangeId.BinanceFuturesUsd) := by
  decide

/-- C6: the default Connector::expected_responses is the number of entries
of the subscription map: one expected ack per entry. -/
theorem c6_expected_responses_default (map : SubscriptionMap) :
    Connector.expected_responses map = map.entries.length :=
  rfl

/-- C7: the default Connector::subscription_timeout is exactly 10 seconds. -/
theorem c7_subscription_timeout_default :
    Connector.subscription_timeout = Duration.from_secs 10 ∧
    Connector.subscription_timeout.as_secs = 10 :=
  ⟨rfl, rfl⟩

/-- C8: every successfully deserialized BinanceCandle carries a
subscription identity re-derived from the symbol field of the payload
combined with the candles channel, and its Identifier::id() is always Some
of that identity, never None. -/
theorem c8_subscription_identity_rederived (raw : RawBinanceCandle)
    (c : BinanceCandle) (h : deserializeBinanceCandle raw = some c) :
    c.id = some (de_kline_subscription_id raw.s) ∧
    de_kline_subscription_id raw.s = (ExchangeSub.mk BinanceChannel.CANDLES raw.s).id := by
  refine ⟨?_, rfl⟩
  cases hk : deserializeBinanceKline raw.k with
  | none =>
    rw [deserializeBinanceCandle, hk] at h
    exact absurd h (by simp)
  | some kl =>
    rw [deserializeBinanceCandle, hk] at h
    simp only [Option.pure_def, Option.bind_eq_bind, Option.some_bind,
      Option.some.injEq] at h
    rw [← h]
    rfl

/-- C8 witness: the statement at the concrete example message. -/
theorem c8_subscription_identity_rederived_witness :
    exampleCandle.id = some (de_kline_subscription_id exampleRawCandle.s) ∧
    de_kline_subscription_id exampleRawCandle.s
      = (ExchangeSub.mk BinanceChannel.CANDLES exampleRawCandle.s).id :=
  c8_subscription_identity_rederived exampleRawCandle exampleCandle
    deserialize_exampleRawCandle

/-- C9: as_str assigns each ExchangeId its stable lowercase tag, the nine
tags are pairwise distinct, and Display produces exactly the same string. -/
theorem c9_as_str_stable_distinct_display :
    ExchangeId.BinanceSpot.as_str = "binance_spot" ∧
    ExchangeId.BinanceFuturesUsd.as_str = "binance_futures_usd" ∧
    ExchangeId.Bitfinex.as_str = "bitfinex" ∧
    ExchangeId.Coinbase.as_str = "coinbase" ∧
    ExchangeId.GateioSpot.as_str = "gateio_spot" ∧
    ExchangeId.GateioFuturesUsd.as_str = "gateio_futures_usd" ∧
    ExchangeId.GateioFuturesBtc.as_str = "gateio_futures_btc" ∧
    ExchangeId.Kraken.as_str = "kraken" ∧
    ExchangeId.Okx.as_str = "okx" ∧
    (∀ a b : ExchangeId, a.as_str = b.as_str → a = b) ∧
    (∀ id : ExchangeId,
      (id.as_str).toList.all (fun ch => ch.isLower || ch = '_') = true) ∧
    (∀ id : ExchangeId, id.display = id.as_str) := by
  decide

/-- C10: the default Connector::ping_interval is None: no application-level
keepalive is declared. -/
theorem c10_ping_interval_default_none :
    Connector.ping_interval = none :=
  rfl

end BarterData
